import Mathlib

/-!
Shallow embedding of the Mutual_Fund_Analysis repository (app.py, working.py,
sip_estimation.py): a proleptic-Gregorian calendar model, the NAV-series
trading-day resolver, the month-cursor SIP simulation loops, the SIP result
computation, the point-to-point CAGR calculator, the resting-period extension
and the multi-fund aggregator.  Monetary quantities and NAVs are modelled as
exact rationals; the fractional-power CAGR formulas are modelled with real
rpow.
-/

namespace MutualFund

/-- Gregorian leap-year test (as used by Python's datetime). -/
def isLeap (y : Nat) : Bool :=
  (y % 4 == 0 && y % 100 != 0) || (y % 400 == 0)

/-- Number of days in month m of year y (months numbered 1..12). -/
def daysInMonth (y m : Nat) : Nat :=
  if m = 2 then (if isLeap y then 29 else 28)
  else if m = 4 ∨ m = 6 ∨ m = 9 ∨ m = 11 then 30
  else 31

/-- A calendar date, mirroring a pandas Timestamp at midnight. -/
structure Date where
  year : Nat
  month : Nat
  day : Nat
  deriving DecidableEq

/-- Linear key giving the chronological order of valid dates. -/
def Date.key (d : Date) : Nat := 10000 * d.year + 100 * d.month + d.day

instance : LE Date := ⟨fun a b => a.key ≤ b.key⟩

instance : LT Date := ⟨fun a b => a.key < b.key⟩

instance (a b : Date) : Decidable (a ≤ b) :=
  inferInstanceAs (Decidable (a.key ≤ b.key))

instance (a b : Date) : Decidable (a < b) :=
  inferInstanceAs (Decidable (a.key < b.key))

theorem Date.le_iff {a b : Date} : a ≤ b ↔ a.key ≤ b.key := Iff.rfl

theorem Date.lt_iff {a b : Date} : a < b ↔ a.key < b.key := Iff.rfl

/-- Well-formed date: month in 1..12 and day in 1..31. -/
def Date.WF (d : Date) : Prop :=
  1 ≤ d.month ∧ d.month ≤ 12 ∧ 1 ≤ d.day ∧ d.day ≤ 31

instance (d : Date) : Decidable d.WF := by
  unfold Date.WF; infer_instance

/-- Days of year y that precede month m (months numbered 1..12). -/
def daysBeforeMonth (y m : Nat) : Nat :=
  ((List.range (m - 1)).map (fun i => daysInMonth y (i + 1))).sum

/-- Proleptic-Gregorian ordinal of a date, as Python date.toordinal:
day 1 is 0001-01-01. -/
def toDays (d : Date) : Nat :=
  365 * (d.year - 1) + (d.year - 1) / 4 + (d.year - 1) / 400 - (d.year - 1) / 100
    + daysBeforeMonth d.year d.month + d.day

/-- Signed day count from a to b, as (b - a).days on pandas Timestamps. -/
def daysBetween (a b : Date) : Int := (toDays b : Int) - (toDays a : Int)

theorem daysInMonth_le (y m : Nat) : daysInMonth y m ≤ 31 := by
  unfold daysInMonth
  split
  · split <;> omega
  · split <;> omega

/-- Months elapsed since year 0 month 1; measures the month-cursor progress. -/
def monthIndex (d : Date) : Nat := 12 * d.year + (d.month - 1)

/-- First day of the calendar month after d, as computed explicitly at the
bottom of the SIP while-loop (next_month / next_year and day 1). -/
def nextMonthDate (d : Date) : Date :=
  if d.month < 12 then ⟨d.year, d.month + 1, 1⟩ else ⟨d.year + 1, 1, 1⟩

/-- The date 32 days after the first of month m of year y, as
current + timedelta(days=32) in the invalid-sip-day branch. -/
def plus32 (y m : Nat) : Date :=
  if 33 ≤ daysInMonth y m then ⟨y, m, 33⟩
  else if m < 12 then ⟨y, m + 1, 33 - daysInMonth y m⟩
  else ⟨y + 1, 1, 33 - daysInMonth y m⟩

/-- Cursor advance used when sip_day does not exist in the current month:
current += timedelta(days=32) followed by current.replace(day=1). -/
def skipAdvance (y m : Nat) : Date :=
  let t := plus32 y m
  ⟨t.year, t.month, 1⟩

theorem skipAdvance_eq (y m : Nat) : skipAdvance y m = nextMonthDate ⟨y, m, 1⟩ := by
  have h31 := daysInMonth_le y m
  unfold skipAdvance plus32 nextMonthDate
  split
  · omega
  · split <;> rfl

theorem monthIndex_nextMonthDate (d : Date) (h1 : 1 ≤ d.month) (h2 : d.month ≤ 12) :
    monthIndex (nextMonthDate d) = monthIndex d + 1 := by
  unfold nextMonthDate
  split <;> (simp only [monthIndex]; omega)

theorem nextMonthDate_WF (d : Date) (h1 : 1 ≤ d.month) (h2 : d.month ≤ 12) :
    (nextMonthDate d).WF := by
  unfold nextMonthDate
  split <;> (simp only [Date.WF]; omega)

theorem monthIndex_le_of_le {a b : Date} (ha : a.WF) (hb : b.WF) (h : a ≤ b) :
    monthIndex a ≤ monthIndex b := by
  obtain ⟨ha1, ha2, ha3, ha4⟩ := ha
  obtain ⟨hb1, hb2, hb3, hb4⟩ := hb
  rw [Date.le_iff] at h
  unfold Date.key at h
  unfold monthIndex
  omega

theorem lt_of_monthIndex_lt {a b : Date} (ha : a.WF) (hb : b.WF)
    (h : monthIndex a < monthIndex b) : a < b := by
  obtain ⟨ha1, ha2, ha3, ha4⟩ := ha
  obtain ⟨hb1, hb2, hb3, hb4⟩ := hb
  rw [Date.lt_iff]
  unfold Date.key
  unfold monthIndex at h
  omega

/-- A NAV sample: trading date and net asset value (one row of the sorted df). -/
abbrev NavRow := Date × ℚ

/-- Default row used for total functions on possibly-empty lists. -/
def navDefault : NavRow := (⟨1, 1, 1⟩, 0)

/-- Trading-day resolver: df[df['date'] >= invest_date] followed by .iloc[0],
i.e. the first row of the date-sorted series whose date is ≥ the target. -/
def resolveNav (series : List NavRow) (d : Date) : Option NavRow :=
  series.find? (fun s => decide (d ≤ s.1))

/-- The series is sorted strictly ascending by date (invariant established by
sort_values('date') plus distinct trading dates). -/
def DateSorted (series : List NavRow) : Prop :=
  series.Pairwise (fun a b => a.1 < b.1)

instance (series : List NavRow) : Decidable (DateSorted series) := by
  unfold DateSorted; infer_instance

/-- Open-ended SIP month loop of app.py / working.py.  The cursor walks first
days of months while current ≤ end; a month whose length is smaller than
sip_day is skipped entirely via the timedelta(days=32) branch; otherwise the
nominal date resolves through resolveNav and, when found, the row is recorded.
The Bool is true when the loop exited because the cursor passed end (rather
than because the fuel ran out). -/
def sipLoopA (series : List NavRow) (sipDay : Nat) (endD : Date) :
    Nat → Date → List NavRow × Bool
  | 0, current => ([], decide (¬ current ≤ endD))
  | fuel + 1, current =>
    if current ≤ endD then
      if 1 ≤ sipDay ∧ sipDay ≤ daysInMonth current.year current.month then
        let rest := sipLoopA series sipDay endD fuel (nextMonthDate current)
        match resolveNav series ⟨current.year, current.month, sipDay⟩ with
        | some row => (row :: rest.1, rest.2)
        | none => rest
      else
        sipLoopA series sipDay endD fuel (skipAdvance current.year current.month)
    else ([], true)

/-- Capped SIP month loop of sip_estimation.py: as sipLoopA but the while
condition also requires months_done < months_to_invest, and months_done is
incremented only when a contribution row is recorded. -/
def sipLoopB (series : List NavRow) (sipDay monthsToInvest : Nat) (endD : Date) :
    Nat → Date → Nat → List NavRow × Bool
  | 0, current, monthsDone =>
      ([], decide (¬ (monthsDone < monthsToInvest ∧ current ≤ endD)))
  | fuel + 1, current, monthsDone =>
    if monthsDone < monthsToInvest ∧ current ≤ endD then
      if 1 ≤ sipDay ∧ sipDay ≤ daysInMonth current.year current.month then
        match resolveNav series ⟨current.year, current.month, sipDay⟩ with
        | some row =>
          let rest := sipLoopB series sipDay monthsToInvest endD fuel
            (nextMonthDate current) (monthsDone + 1)
          (row :: rest.1, rest.2)
        | none =>
          sipLoopB series sipDay monthsToInvest endD fuel (nextMonthDate current) monthsDone
      else
        sipLoopB series sipDay monthsToInvest endD fuel
          (skipAdvance current.year current.month) monthsDone
    else ([], true)

/-- Initial cursor: datetime(start.year, start.month, 1). -/
def sipStartCursor (startD : Date) : Date := ⟨startD.year, startD.month, 1⟩

/-- Fuel that provably suffices for the month-cursor loops. -/
def sipFuel (startD endD : Date) : Nat :=
  monthIndex endD + 1 - monthIndex (sipStartCursor startD)

/-- Contribution events of the open-ended simulation (app.py / working.py). -/
def sipEvents (series : List NavRow) (sipDay : Nat) (startD endD : Date) :
    List NavRow :=
  (sipLoopA series sipDay endD (sipFuel startD endD) (sipStartCursor startD)).1

/-- Last row of the sorted series: df.iloc[-1]. -/
def finalSample (series : List NavRow) : NavRow := series.getLastD navDefault

/-- Maximum of the date column: df['date'].max(). -/
def maxDate (series : List NavRow) : Date :=
  series.foldl (fun acc s => if acc ≤ s.1 then s.1 else acc) ⟨1, 1, 1⟩

/-- Minimum of the date column: df['date'].min(). -/
def minDate (series : List NavRow) : Date :=
  match series with
  | [] => ⟨1, 1, 1⟩
  | s :: rest => rest.foldl (fun acc t => if t.1 ≤ acc then t.1 else acc) s.1

/-- d minus a whole-year offset, as d - pd.DateOffset(years=y): same month,
day clamped to the shorter target month (Feb 29 to Feb 28). -/
def subYears (d : Date) (y : Nat) : Date :=
  ⟨d.year - y, d.month, min d.day (daysInMonth (d.year - y) d.month)⟩

/-- Aggregated figures of one SIP simulation (lines 70-75 of app.py,
56-60 of working.py, 77-82 of sip_estimation.py). -/
structure SipOutcome where
  totalUnits : ℚ
  totalInvested : ℚ
  finalValue : ℚ
  actualYears : ℚ
  cagr : ℝ

/-- The unguarded CAGR expression (v_end / v_start) ** (1 / years) - 1,
with Python's float ** on a positive base modelled as real rpow.  This is
the inline formula of app.py line 75 and working.py lines 60 and 87. -/
noncomputable def rawCagr (vStart vEnd years : ℚ) : ℝ :=
  ((vEnd / vStart : ℚ) : ℝ) ^ (1 / (years : ℝ)) - 1

/-- calculate_cagr of app.py (lines 97-98) and sip_estimation.py (lines
32-33): the rpow formula when years > 0, else 0. -/
noncomputable def calculate_cagr (startNav endNav years : ℚ) : ℝ :=
  if 0 < years then ((endNav / startNav : ℚ) : ℝ) ^ (1 / (years : ℝ)) - 1
  else 0

/-- calculate_cagr of working.py (lines 86-87): the same formula with no
years > 0 guard. -/
noncomputable def workingCalculateCagr (startNav endNav years : ℚ) : ℝ :=
  ((endNav / startNav : ℚ) : ℝ) ^ (1 / (years : ℝ)) - 1

/-- calculate_estimated_amount: initial_investment * (1 + cagr) ** years. -/
noncomputable def calculate_estimated_amount (cagr years principal : ℝ) : ℝ :=
  principal * (1 + cagr) ^ years

/-- The number of days between two dates divided by the fixed 365.25
year convention, as a rational. -/
def yearsBetween (a b : Date) : ℚ := ((daysBetween a b : ℤ) : ℚ) / (365.25 : ℚ)

/-- SIP result computation of app.py lines 70-75: totals over the events,
valuation at the last NAV, elapsed years from the first event date to the
last series date, and the inline CAGR power formula. -/
noncomputable def appSipOutcome (series : List NavRow) (sipDay : Nat)
    (startD endD : Date) (amount : ℚ) : SipOutcome :=
  let events := sipEvents series sipDay startD endD
  let totalUnits := (events.map (fun e => amount / e.2)).sum
  let totalInvested := (events.length : ℚ) * amount
  let finalValue := totalUnits * (finalSample series).2
  let actualYears := yearsBetween (events.headD navDefault).1 (finalSample series).1
  ⟨totalUnits, totalInvested, finalValue, actualYears,
    rawCagr totalInvested finalValue actualYears⟩

/-- Per-sip-day entry of app.py: the result row exists in cagr_results only
when at least 24 contribution events were produced (lines 67-68). -/
noncomputable def appDayResult (series : List NavRow) (sipDay : Nat)
    (startD endD : Date) (amount : ℚ) : Option SipOutcome :=
  if (sipEvents series sipDay startD endD).length < 24 then none
  else some (appSipOutcome series sipDay startD endD amount)

/-- SIP result computation of working.py lines 53-60: identical totals, but
the CAGR exponent uses the whole-series span (df min to df max, line 27),
not the first contribution date. -/
noncomputable def workingOutcome (series : List NavRow) (sipDay : Nat)
    (amount : ℚ) : SipOutcome :=
  let startD := minDate series
  let endD := maxDate series
  let years := yearsBetween startD endD
  let events := sipEvents series sipDay startD endD
  let totalUnits := (events.map (fun e => amount / e.2)).sum
  let totalInvested := (events.length : ℚ) * amount
  let finalValue := totalUnits * (finalSample series).2
  ⟨totalUnits, totalInvested, finalValue, years,
    rawCagr totalInvested finalValue years⟩

/-- Contribution events of sip_estimation.py's analyze_fund (lines 48-71):
window from (last date - years) to the last date, capped at years * 12
contributions. -/
def analyzeEvents (series : List NavRow) (sipDay : Nat) (years : Nat) :
    List NavRow :=
  let endD := maxDate series
  let startD := subYears endD years
  (sipLoopB series sipDay (years * 12) endD (sipFuel startD endD)
    (sipStartCursor startD) 0).1

/-- Result computation of analyze_fund (lines 77-82): as app.py, except the
CAGR goes through calculate_cagr, whose years-guard maps a non-positive
elapsed time to 0. -/
noncomputable def analyzeOutcome (series : List NavRow) (sipDay : Nat)
    (amount : ℚ) (years : Nat) : SipOutcome :=
  let events := analyzeEvents series sipDay years
  let totalUnits := (events.map (fun e => amount / e.2)).sum
  let totalInvested := (events.length : ℚ) * amount
  let finalValue := totalUnits * (finalSample series).2
  let actualYears := yearsBetween (events.headD navDefault).1 (finalSample series).1
  ⟨totalUnits, totalInvested, finalValue, actualYears,
    calculate_cagr totalInvested finalValue actualYears⟩

/-- analyze_fund's fallible core (lines 73-89): None when fewer than 12
contribution events were simulated, otherwise the computed outcome. -/
noncomputable def analyze_fund_core (series : List NavRow) (sipDay : Nat)
    (amount : ℚ) (years : Nat) : Option SipOutcome :=
  if (analyzeEvents series sipDay years).length < 12 then none
  else some (analyzeOutcome series sipDay amount years)

/-- Date-ascending sort: df.sort_values('date'). -/
def sortByDate (series : List NavRow) : List NavRow :=
  List.insertionSort (fun a b => a.1 ≤ b.1) series

/-- Resting sub-series of apply_resting_period (lines 95-98): rows of the
re-sorted frame dated on or after (max date - resting years). -/
def restingSub (series : List NavRow) (years : Int) : List NavRow :=
  (sortByDate series).filter
    (fun s => decide (subYears (maxDate (sortByDate series)) years.toNat ≤ s.1))

/-- round(x, 2) on the percentage output of apply_resting_period, modelled
with Mathlib's round (Python's float round differs only at exact ties). -/
noncomputable def roundTo2 (x : ℝ) : ℝ := ((round (x * 100) : ℤ) : ℝ) / 100

/-- apply_resting_period (sip_estimation.py lines 91-107): no change for a
non-positive resting period or an empty resting window, otherwise the
invested amount projected forward by the window's CAGR, paired with that
CAGR as a rounded percentage. -/
noncomputable def apply_resting_period (series : List NavRow)
    (investedAmount : ℚ) (years : Int) : ℝ × ℝ :=
  if years ≤ 0 then ((investedAmount : ℝ), 0)
  else if (restingSub series years).isEmpty then ((investedAmount : ℝ), 0)
  else
    (calculate_estimated_amount
        (calculate_cagr ((restingSub series years).headD navDefault).2
          ((restingSub series years).getLastD navDefault).2 (years : ℚ))
        (years : ℝ) (investedAmount : ℝ),
      roundTo2 (calculate_cagr ((restingSub series years).headD navDefault).2
          ((restingSub series years).getLastD navDefault).2 (years : ℚ) * 100))

/-- Portfolio aggregation of sip_estimation.py's main (lines 113-123 and
144-149): grand totals of invested and final value over the successfully
simulated funds, and one blended CAGR over the shared horizon
funds[0]['years'].  The source accumulates the totals by re-parsing the
two-decimal formatted strings of each result row; that round trip is
modelled as the identity on the numeric values. -/
noncomputable def portfolioAggregate (results : List (ℚ × ℚ)) (years : ℚ) :
    ℚ × ℚ × ℝ :=
  let totalInvested := (results.map Prod.fst).sum
  let totalFinalValue := (results.map Prod.snd).sum
  (totalInvested, totalFinalValue,
    calculate_cagr totalInvested totalFinalValue years)

theorem Date.le_rfl (a : Date) : a ≤ a := Nat.le_refl _

theorem Date.le_of_lt {a b : Date} (h : a < b) : a ≤ b := Nat.le_of_lt h

/-- The last element (with any default) of a nonempty list is a member. -/
theorem getLastD_mem_cons : ∀ (l : List NavRow) (a d : NavRow),
    (a :: l).getLastD d ∈ a :: l
  | [], a, d => by simp
  | b :: t, a, d => by
    rw [List.getLastD_cons]
    exact List.mem_cons_of_mem _ (getLastD_mem_cons t b a)

/-- In a date-sorted series every row's date is at most the last row's date. -/
theorem sorted_le_getLastD : ∀ (series : List NavRow) (d : NavRow),
    DateSorted series → ∀ x ∈ series, x.1 ≤ (series.getLastD d).1
  | [], _, _, x, hx => by simp at hx
  | [a], _, _, x, hx => by
    rw [List.mem_singleton] at hx
    subst hx
    exact Date.le_rfl _
  | a :: b :: t, d, hs, x, hx => by
    rw [DateSorted, List.pairwise_cons] at hs
    rw [List.getLastD_cons]
    rcases List.mem_cons.1 hx with rfl | hxr
    · exact Date.le_of_lt (hs.1 _ (getLastD_mem_cons t b x))
    · exact sorted_le_getLastD (b :: t) a hs.2 x hxr

/-- On a date-sorted series the resolver's answer is a member on or after the
target date, and no member on or after the target date is earlier. -/
theorem resolveNav_eq_some {series : List NavRow} {d : Date} {x : NavRow}
    (hs : DateSorted series) (hx : resolveNav series d = some x) :
    x ∈ series ∧ d ≤ x.1 ∧ ∀ t ∈ series, d ≤ t.1 → x.1 ≤ t.1 := by
  induction series with
  | nil => simp [resolveNav] at hx
  | cons a rest ih =>
    rw [DateSorted, List.pairwise_cons] at hs
    by_cases hda : d ≤ a.1
    · rw [resolveNav, List.find?_cons_of_pos _ (by simpa using hda)] at hx
      obtain rfl := Option.some.inj hx
      refine ⟨List.mem_cons_self _ _, hda, ?_⟩
      intro t ht _
      rcases List.mem_cons.1 ht with rfl | htr
      · exact Date.le_rfl _
      · exact Date.le_of_lt (hs.1 t htr)
    · rw [resolveNav, List.find?_cons_of_neg _ (by simpa using hda)] at hx
      obtain ⟨hmem, hle, hmin⟩ := ih hs.2 hx
      refine ⟨List.mem_cons_of_mem _ hmem, hle, ?_⟩
      intro t ht hdt
      rcases List.mem_cons.1 ht with rfl | htr
      · exact absurd hdt hda
      · exact hmin t htr hdt

/-- Completeness of the resolver: whenever some row is dated on or after the
target, find? cannot answer none. -/
theorem resolveNav_isSome {series : List NavRow} {d : Date} {t : NavRow}
    (ht : t ∈ series) (hdt : d ≤ t.1) :
    ∃ x, resolveNav series d = some x := by
  cases hx : resolveNav series d with
  | some x => exact ⟨x, rfl⟩
  | none =>
    rw [resolveNav, List.find?_eq_none] at hx
    exact absurd hdt (by simpa using hx t ht)

/-- C2: on every non-empty date-sorted NAV series the trading-day resolver
returns the first sample dated on or after the target date — it returns some
row exactly when a row dated on or after the target exists, and any returned
row is the earliest such — with at least two samples, a target on or before
the first date returns the first sample, and a target strictly after the
last date returns none. -/
theorem C2_resolver_spec (series : List NavRow) (d : Date)
    (hs : DateSorted series) (hne : series ≠ []) :
    (∀ x, resolveNav series d = some x →
      x ∈ series ∧ d ≤ x.1 ∧ ∀ t ∈ series, d ≤ t.1 → x.1 ≤ t.1)
    ∧ (2 ≤ series.length → d ≤ (series.headD navDefault).1 →
      resolveNav series d = some (series.headD navDefault))
    ∧ (2 ≤ series.length → (series.getLastD navDefault).1 < d →
      resolveNav series d = none)
    ∧ (∀ t ∈ series, d ≤ t.1 → ∃ x, resolveNav series d = some x) := by
  refine ⟨fun x hx => resolveNav_eq_some hs hx, ?_, ?_,
    fun t ht hdt => resolveNav_isSome ht hdt⟩
  · intro _ hd
    cases series with
    | nil => exact absurd rfl hne
    | cons a rest =>
      simp only [List.headD_cons] at hd ⊢
      exact List.find?_cons_of_pos _ (by simpa using hd)
  · intro _ hd
    rw [resolveNav, List.find?_eq_none]
    intro x hx
    simp only [decide_eq_true_eq]
    intro hdx
    have hxl := sorted_le_getLastD series navDefault hs x hx
    rw [Date.le_iff] at hdx hxl
    rw [Date.lt_iff] at hd
    omega

theorem nextMonthDate_mk (d : Date) :
    nextMonthDate ⟨d.year, d.month, 1⟩ = nextMonthDate d := rfl

/-- With fuel covering the month distance to the end date, the open-ended
SIP loop exits because the cursor passed the end date, never by running out
of fuel. -/
theorem sipLoopA_completes (series : List NavRow) (sipDay : Nat) (endD : Date)
    (hE : endD.WF) :
    ∀ (fuel : Nat) (current : Date), current.WF →
      monthIndex endD + 1 - monthIndex current ≤ fuel →
      (sipLoopA series sipDay endD fuel current).2 = true := by
  intro fuel
  induction fuel with
  | zero =>
    intro current hc hm
    have hlt : endD < current := lt_of_monthIndex_lt hE hc (by omega)
    simp only [sipLoopA, decide_eq_true_eq]
    rw [Date.lt_iff] at hlt
    rw [Date.le_iff]
    omega
  | succ n ih =>
    intro current hc hm
    rw [sipLoopA]
    by_cases hle : current ≤ endD
    · have hmle : monthIndex current ≤ monthIndex endD :=
        monthIndex_le_of_le hc hE hle
      have hwfn : (nextMonthDate current).WF := nextMonthDate_WF current hc.1 hc.2.1
      have hidx : monthIndex (nextMonthDate current) = monthIndex current + 1 :=
        monthIndex_nextMonthDate current hc.1 hc.2.1
      have hrec := ih (nextMonthDate current) hwfn (by omega)
      rw [if_pos hle]
      by_cases hday : 1 ≤ sipDay ∧ sipDay ≤ daysInMonth current.year current.month
      · rw [if_pos hday]
        cases hfind : resolveNav series ⟨current.year, current.month, sipDay⟩ with
        | some row => simpa [hfind] using hrec
        | none => simpa [hfind] using hrec
      · rw [if_neg hday, skipAdvance_eq, nextMonthDate_mk]
        exact hrec
    · rw [if_neg hle]

/-- Fuel-completion for the capped loop of sip_estimation.py. -/
theorem sipLoopB_completes (series : List NavRow) (sipDay monthsToInvest : Nat)
    (endD : Date) (hE : endD.WF) :
    ∀ (fuel : Nat) (current : Date) (monthsDone : Nat), current.WF →
      monthIndex endD + 1 - monthIndex current ≤ fuel →
      (sipLoopB series sipDay monthsToInvest endD fuel current monthsDone).2 = true := by
  intro fuel
  induction fuel with
  | zero =>
    intro current monthsDone hc hm
    have hlt : endD < current := lt_of_monthIndex_lt hE hc (by omega)
    simp only [sipLoopB, decide_eq_true_eq]
    rintro ⟨-, hle⟩
    rw [Date.lt_iff] at hlt
    rw [Date.le_iff] at hle
    omega
  | succ n ih =>
    intro current monthsDone hc hm
    rw [sipLoopB]
    by_cases hcond : monthsDone < monthsToInvest ∧ current ≤ endD
    · have hmle : monthIndex current ≤ monthIndex endD :=
        monthIndex_le_of_le hc hE hcond.2
      have hwfn : (nextMonthDate current).WF := nextMonthDate_WF current hc.1 hc.2.1
      have hidx : monthIndex (nextMonthDate current) = monthIndex current + 1 :=
        monthIndex_nextMonthDate current hc.1 hc.2.1
      rw [if_pos hcond]
      by_cases hday : 1 ≤ sipDay ∧ sipDay ≤ daysInMonth current.year current.month
      · rw [if_pos hday]
        cases hfind : resolveNav series ⟨current.year, current.month, sipDay⟩ with
        | some row =>
          simpa [hfind] using ih (nextMonthDate current) (monthsDone + 1) hwfn (by omega)
        | none =>
          simpa [hfind] using ih (nextMonthDate current) monthsDone hwfn (by omega)
      · rw [if_neg hday, skipAdvance_eq, nextMonthDate_mk]
        exact ih (nextMonthDate current) monthsDone hwfn (by omega)
    · rw [if_neg hcond]

/-- C10: for every sip_day and every well-formed pair of start and end dates
the SIP month-cursor loops terminate: each iteration, the invalid-day branch
included, moves the cursor to the first day of the next calendar month
(strictly increasing its month index), and with fuel equal to the month
distance both loops exit by passing the end date rather than exhausting the
fuel. -/
theorem C10_loop_terminates (series : List NavRow) (sipDay : Nat)
    (startD endD : Date) (hS : startD.WF) (hE : endD.WF) :
    (∀ current : Date, current.WF →
      (nextMonthDate current).day = 1
      ∧ monthIndex current < monthIndex (nextMonthDate current)
      ∧ skipAdvance current.year current.month = nextMonthDate current)
    ∧ (sipLoopA series sipDay endD (sipFuel startD endD) (sipStartCursor startD)).2 = true
    ∧ ∀ monthsToInvest, (sipLoopB series sipDay monthsToInvest endD
        (sipFuel startD endD) (sipStartCursor startD) 0).2 = true := by
  have hcw : (sipStartCursor startD).WF := ⟨hS.1, hS.2.1, Nat.le_refl 1, by norm_num [sipStartCursor]⟩
  refine ⟨?_, ?_, ?_⟩
  · intro current hc
    refine ⟨?_, ?_, ?_⟩
    · unfold nextMonthDate
      split <;> rfl
    · rw [monthIndex_nextMonthDate current hc.1 hc.2.1]
      omega
    · rw [skipAdvance_eq, nextMonthDate_mk]
  · exact sipLoopA_completes series sipDay endD hE (sipFuel startD endD)
      (sipStartCursor startD) hcw (Nat.le_refl _)
  · intro monthsToInvest
    exact sipLoopB_completes series sipDay monthsToInvest endD hE (sipFuel startD endD)
      (sipStartCursor startD) 0 hcw (Nat.le_refl _)

/-- Concrete sorted two-sample series used by several witnesses. -/
def witSeries : List NavRow := [(⟨2021, 1, 1⟩, 10), (⟨2021, 2, 1⟩, 11)]

/-- Witness for C2 on a concrete sorted two-sample series: a target before
the first date resolves to the first sample, and a mid-range target (after
the first date, on or before the last) still resolves to some sample. -/
theorem C2_witness :
    resolveNav witSeries ⟨2020, 12, 15⟩ = some (⟨2021, 1, 1⟩, 10)
    ∧ (resolveNav witSeries ⟨2021, 1, 15⟩).isSome = true := by
  constructor
  · exact (C2_resolver_spec witSeries ⟨2020, 12, 15⟩ (by decide) (by decide)).2.1
      (by decide) (by decide)
  · obtain ⟨x, hx⟩ := (C2_resolver_spec witSeries ⟨2021, 1, 15⟩ (by decide)
      (by decide)).2.2.2 (⟨2021, 2, 1⟩, 11) (by decide) (by decide)
    rw [hx]
    rfl

/-- Witness for C10: the day-31 loop over 2021 with its month-distance fuel
exits by passing the end date. -/
theorem C10_witness :
    (sipLoopA witSeries 31 ⟨2021, 2, 1⟩ (sipFuel ⟨2021, 1, 1⟩ ⟨2021, 2, 1⟩)
      (sipStartCursor ⟨2021, 1, 1⟩)).2 = true :=
  (C10_loop_terminates witSeries 31 ⟨2021, 1, 1⟩ ⟨2021, 2, 1⟩ (by decide)
    (by decide)).2.1

/-- Series dense enough that every nominal 2021 date resolves: one sample at
the start of 2021 and one after the end of 2021. -/
def spanSeries : List NavRow := [(⟨2021, 1, 1⟩, 10), (⟨2022, 1, 5⟩, 12)]

/-- C3 (amended): a month whose length is below sip_day contributes no event
and the cursor moves to the first of the next month without rolling over; on
a 12-month span covering all of 2021 (February included), with every nominal
date resolving, day 1 produces 12 events, day 30 produces 11, and day 31
produces 7 (one per 31-day month). -/
theorem C3_skip_policy :
    (∀ (series : List NavRow) (sipDay fuel : Nat) (endD current : Date),
      current ≤ endD →
      ¬ (1 ≤ sipDay ∧ sipDay ≤ daysInMonth current.year current.month) →
      sipLoopA series sipDay endD (fuel + 1) current
        = sipLoopA series sipDay endD fuel (nextMonthDate current))
    ∧ (sipEvents spanSeries 1 ⟨2021, 1, 1⟩ ⟨2021, 12, 1⟩).length = 12
    ∧ (sipEvents spanSeries 30 ⟨2021, 1, 1⟩ ⟨2021, 12, 1⟩).length = 11
    ∧ (sipEvents spanSeries 31 ⟨2021, 1, 1⟩ ⟨2021, 12, 1⟩).length = 7 := by
  refine ⟨?_, by decide, by decide, by decide⟩
  intro series sipDay fuel endD current hle hday
  rw [sipLoopA, if_pos hle, if_neg hday, skipAdvance_eq, nextMonthDate_mk]

/-- Witness for C3: April has no day 31, so the day-31 loop skips April 2021
outright and continues from May 2021. -/
theorem C3_witness :
    sipLoopA spanSeries 31 ⟨2021, 12, 1⟩ 9 ⟨2021, 4, 1⟩
      = sipLoopA spanSeries 31 ⟨2021, 12, 1⟩ 8 (nextMonthDate ⟨2021, 4, 1⟩) :=
  C3_skip_policy.1 spanSeries 31 8 ⟨2021, 12, 1⟩ ⟨2021, 4, 1⟩ (by decide) (by decide)

/-- Counterexample for C3 as stated: over the 12-month span covering 2021,
which includes February, the day-31 simulation produces 7 contribution
events, not 11. -/
theorem C3_counterexample :
    (sipEvents spanSeries 31 ⟨2021, 1, 1⟩ ⟨2021, 12, 1⟩).length = 7
    ∧ (sipEvents spanSeries 31 ⟨2021, 1, 1⟩ ⟨2021, 12, 1⟩).length ≠ 11 := by
  refine ⟨by decide, by decide⟩

/-- Sparse series: with sip_day 31 and a one-year horizon it yields 7
contribution events. -/
def sparseSeries : List NavRow := [(⟨2021, 1, 15⟩, 10), (⟨2021, 12, 15⟩, 20)]

/-- C4: a simulation producing fewer events than the minimum threshold (24
in the open-ended app.py mode, 12 in sip_estimation.py's fixed-horizon mode)
yields no result for that sip_day / fund instead of a partial result. -/
theorem C4_min_events (series : List NavRow) (sipDay : Nat) (startD endD : Date)
    (amount : ℚ) (years : Nat)
    (hApp : (sipEvents series sipDay startD endD).length < 24)
    (hAna : (analyzeEvents series sipDay years).length < 12) :
    appDayResult series sipDay startD endD amount = none
    ∧ analyze_fund_core series sipDay amount years = none := by
  constructor
  · rw [appDayResult, if_pos hApp]
  · rw [analyze_fund_core, if_pos hAna]

/-- Witness for C4: the sparse series gives 7 events under sip_day 31, below
both thresholds, and both entry points produce no result. -/
theorem C4_witness :
    appDayResult sparseSeries 31 ⟨2021, 1, 15⟩ ⟨2021, 12, 15⟩ 1000 = none
    ∧ analyze_fund_core sparseSeries 31 1000 1 = none :=
  C4_min_events sparseSeries 31 ⟨2021, 1, 15⟩ ⟨2021, 12, 15⟩ 1000 1
    (by decide) (by decide)

theorem headD_eq_head {α : Type} (l : List α) (h : l ≠ []) (d : α) :
    l.headD d = l.head h := by
  cases l with
  | nil => exact absurd rfl h
  | cons a t => rfl

/-- C1 (amended): for every open-ended simulation with at least one
contribution event, app.py's result satisfies: total units is the sum of
amount over NAV across the events, total invested is the event count times
the amount, final value is total units times the last NAV, elapsed years is
the days from the first event's date to the series' last date over 365.25,
and the CAGR is (final value / total invested) to the power of one over the
elapsed years, minus one.  working.py computes the same totals but its
exponent years is the whole-series span (min date to max date over 365.25),
not the span from the first contribution event. -/
theorem C1_sip_result_formulas (series : List NavRow) (sipDay : Nat)
    (startD endD : Date) (amount : ℚ)
    (hne : sipEvents series sipDay startD endD ≠ []) :
    (appSipOutcome series sipDay startD endD amount).totalUnits
      = ((sipEvents series sipDay startD endD).map (fun e => amount / e.2)).sum
    ∧ (appSipOutcome series sipDay startD endD amount).totalInvested
      = ((sipEvents series sipDay startD endD).length : ℚ) * amount
    ∧ (appSipOutcome series sipDay startD endD amount).finalValue
      = (appSipOutcome series sipDay startD endD amount).totalUnits
          * (finalSample series).2
    ∧ (appSipOutcome series sipDay startD endD amount).actualYears
      = yearsBetween ((sipEvents series sipDay startD endD).head hne).1
          (finalSample series).1
    ∧ (appSipOutcome series sipDay startD endD amount).cagr
      = (((appSipOutcome series sipDay startD endD amount).finalValue
            / (appSipOutcome series sipDay startD endD amount).totalInvested : ℚ) : ℝ)
          ^ (1 / ((appSipOutcome series sipDay startD endD amount).actualYears : ℝ)) - 1
    ∧ (workingOutcome series sipDay amount).actualYears
      = yearsBetween (minDate series) (maxDate series)
    ∧ (workingOutcome series sipDay amount).cagr
      = (((workingOutcome series sipDay amount).finalValue
            / (workingOutcome series sipDay amount).totalInvested : ℚ) : ℝ)
          ^ (1 / ((workingOutcome series sipDay amount).actualYears : ℝ)) - 1 := by
  refine ⟨rfl, rfl, rfl, ?_, rfl, rfl, rfl⟩
  show yearsBetween ((sipEvents series sipDay startD endD).headD navDefault).1
      (finalSample series).1
    = yearsBetween ((sipEvents series sipDay startD endD).head hne).1
      (finalSample series).1
  rw [headD_eq_head _ hne]

/-- Witness for C1 at a concrete two-event simulation. -/
theorem C1_witness :
    (appSipOutcome witSeries 1 ⟨2021, 1, 1⟩ ⟨2021, 2, 1⟩ 100).totalInvested
      = ((sipEvents witSeries 1 ⟨2021, 1, 1⟩ ⟨2021, 2, 1⟩).length : ℚ) * 100 :=
  (C1_sip_result_formulas witSeries 1 ⟨2021, 1, 1⟩ ⟨2021, 2, 1⟩ 100 (by decide)).2.1

/-- Series whose first nominal investment date resolves past the earliest
sample, so all contributions execute at the final sample. -/
def skewSeries : List NavRow := [(⟨2021, 1, 5⟩, 10), (⟨2023, 6, 1⟩, 20)]

/-- Counterexample for C1 as stated: working.py's simulation on skewSeries
with sip_day 10 produces contribution events, yet its elapsed years are not
the days from the first contribution event to the final date over 365.25:
every event resolves to the final sample, making that convention 0, while
working.py uses the 877-day whole-series span. -/
theorem C1_counterexample :
    sipEvents skewSeries 10 (minDate skewSeries) (maxDate skewSeries) ≠ []
    ∧ (workingOutcome skewSeries 10 100).actualYears
      ≠ yearsBetween
          ((sipEvents skewSeries 10 (minDate skewSeries)
            (maxDate skewSeries)).headD navDefault).1
          (finalSample skewSeries).1 := by
  refine ⟨by decide, ?_⟩
  have h1 : (workingOutcome skewSeries 10 100).actualYears
      = yearsBetween (minDate skewSeries) (maxDate skewSeries) := rfl
  have h2 : daysBetween (minDate skewSeries) (maxDate skewSeries) = 877 := by decide
  have h3 : daysBetween
      ((sipEvents skewSeries 10 (minDate skewSeries)
        (maxDate skewSeries)).headD navDefault).1
      (finalSample skewSeries).1 = 0 := by decide
  rw [h1, yearsBetween, yearsBetween, h2, h3]
  norm_num

theorem sum_units_smul (events : List NavRow) (c amount : ℚ) :
    (events.map (fun e => c * amount / e.2)).sum
      = c * (events.map (fun e => amount / e.2)).sum := by
  induction events with
  | nil => simp
  | cons a t ih =>
    simp only [List.map_cons, List.sum_cons, ih, mul_add]
    rw [mul_div_assoc]

theorem rawCagr_scale (c ti fv years : ℚ) (hc : c ≠ 0) :
    rawCagr (c * ti) (c * fv) years = rawCagr ti fv years := by
  rw [rawCagr, rawCagr, mul_div_mul_left fv ti hc]

theorem calculate_cagr_scale (c ti fv years : ℚ) (hc : c ≠ 0) :
    calculate_cagr (c * ti) (c * fv) years = calculate_cagr ti fv years := by
  rw [calculate_cagr, calculate_cagr, mul_div_mul_left fv ti hc]

/-- C9: SIP simulation is homogeneous in the monthly amount: the produced
events do not depend on it, doubling the amount doubles total units, total
invested and final value, and leaves the CAGR unchanged, in both the app.py
and the sip_estimation.py result computations. -/
theorem C9_amount_homogeneous (series : List NavRow) (sipDay : Nat)
    (startD endD : Date) (amount : ℚ) (years : Nat) :
    (appSipOutcome series sipDay startD endD (2 * amount)).totalUnits
      = 2 * (appSipOutcome series sipDay startD endD amount).totalUnits
    ∧ (appSipOutcome series sipDay startD endD (2 * amount)).totalInvested
      = 2 * (appSipOutcome series sipDay startD endD amount).totalInvested
    ∧ (appSipOutcome series sipDay startD endD (2 * amount)).finalValue
      = 2 * (appSipOutcome series sipDay startD endD amount).finalValue
    ∧ (appSipOutcome series sipDay startD endD (2 * amount)).cagr
      = (appSipOutcome series sipDay startD endD amount).cagr
    ∧ (analyzeOutcome series sipDay (2 * amount) years).totalInvested
      = 2 * (analyzeOutcome series sipDay amount years).totalInvested
    ∧ (analyzeOutcome series sipDay (2 * amount) years).finalValue
      = 2 * (analyzeOutcome series sipDay amount years).finalValue
    ∧ (analyzeOutcome series sipDay (2 * amount) years).cagr
      = (analyzeOutcome series sipDay amount years).cagr := by
  have hinv : ∀ n : ℚ, n * (2 * amount) = 2 * (n * amount) := fun n => by ring
  refine ⟨sum_units_smul _ 2 amount, hinv _, ?_, ?_, hinv _, ?_, ?_⟩
  · show ((sipEvents series sipDay startD endD).map
        (fun e => 2 * amount / e.2)).sum * (finalSample series).2
      = 2 * (((sipEvents series sipDay startD endD).map
        (fun e => amount / e.2)).sum * (finalSample series).2)
    rw [sum_units_smul]
    ring
  · show rawCagr
        (((sipEvents series sipDay startD endD).length : ℚ) * (2 * amount))
        (((sipEvents series sipDay startD endD).map
          (fun e => 2 * amount / e.2)).sum * (finalSample series).2) _
      = rawCagr _ _ _
    rw [sum_units_smul, hinv, mul_assoc]
    exact rawCagr_scale 2 _ _ _ two_ne_zero
  · show ((analyzeEvents series sipDay years).map
        (fun e => 2 * amount / e.2)).sum * (finalSample series).2
      = 2 * (((analyzeEvents series sipDay years).map
        (fun e => amount / e.2)).sum * (finalSample series).2)
    rw [sum_units_smul]
    ring
  · show calculate_cagr
        (((analyzeEvents series sipDay years).length : ℚ) * (2 * amount))
        (((analyzeEvents series sipDay years).map
          (fun e => 2 * amount / e.2)).sum * (finalSample series).2) _
      = calculate_cagr _ _ _
    rw [sum_units_smul, hinv, mul_assoc]
    exact calculate_cagr_scale 2 _ _ _ two_ne_zero

/-- C5 (amended): when sip_estimation.py's analyze_fund returns a result
whose elapsed years are non-positive, the result's CAGR is 0 — the
years-guard of calculate_cagr coerces it — rather than the result being
withheld; absence of a result arises only from the minimum-events check. -/
theorem C5_zero_years_cagr (series : List NavRow) (sipDay : Nat) (amount : ℚ)
    (years : Nat) (r : SipOutcome)
    (hr : analyze_fund_core series sipDay amount years = some r)
    (hy : r.actualYears ≤ 0) :
    r.cagr = 0 := by
  rw [analyze_fund_core] at hr
  by_cases hlen : (analyzeEvents series sipDay years).length < 12
  · rw [if_pos hlen] at hr
    exact absurd hr (by simp)
  · rw [if_neg hlen] at hr
    obtain rfl := (Option.some.inj hr).symm
    show calculate_cagr _ _ _ = 0
    have hy2 : yearsBetween ((analyzeEvents series sipDay years).headD navDefault).1
        (finalSample series).1 ≤ 0 := hy
    rw [calculate_cagr, if_neg (not_lt.2 hy2)]

/-- Single-sample series: the twelve capped contributions all resolve to the
one sample, so the elapsed years of the result are zero. -/
def flatSeries : List NavRow := [(⟨2021, 6, 15⟩, 10)]

/-- Witness for C5's amended statement: a concrete produced result with zero
elapsed years whose CAGR field is 0. -/
theorem C5_witness :
    (analyze_fund_core flatSeries 1 1000 1).map SipOutcome.cagr = some 0 := by
  have hlen : ¬ (analyzeEvents flatSeries 1 1).length < 12 := by decide
  have hsome : analyze_fund_core flatSeries 1 1000 1
      = some (analyzeOutcome flatSeries 1 1000 1) := by
    rw [analyze_fund_core, if_neg hlen]
  have hy : (analyzeOutcome flatSeries 1 1000 1).actualYears ≤ 0 := by
    show yearsBetween ((analyzeEvents flatSeries 1 1).headD navDefault).1
        (finalSample flatSeries).1 ≤ 0
    have hd : daysBetween ((analyzeEvents flatSeries 1 1).headD navDefault).1
        (finalSample flatSeries).1 = 0 := by decide
    rw [yearsBetween, hd]
    norm_num
  rw [hsome, Option.map_some',
    C5_zero_years_cagr flatSeries 1 1000 1 _ hsome hy]

/-- Counterexample for C5 as stated: a simulation whose elapsed years are
zero still produces a result (CAGR coerced through calculate_cagr), instead
of surfacing the undefined CAGR as an absent value. -/
theorem C5_counterexample :
    (analyze_fund_core flatSeries 1 1000 1).isSome = true
    ∧ (analyze_fund_core flatSeries 1 1000 1).map SipOutcome.actualYears
      = some 0 := by
  have hlen : ¬ (analyzeEvents flatSeries 1 1).length < 12 := by decide
  have hsome : analyze_fund_core flatSeries 1 1000 1
      = some (analyzeOutcome flatSeries 1 1000 1) := by
    rw [analyze_fund_core, if_neg hlen]
  have hy : (analyzeOutcome flatSeries 1 1000 1).actualYears = 0 := by
    show yearsBetween ((analyzeEvents flatSeries 1 1).headD navDefault).1
        (finalSample flatSeries).1 = 0
    have hd : daysBetween ((analyzeEvents flatSeries 1 1).headD navDefault).1
        (finalSample flatSeries).1 = 0 := by decide
    rw [yearsBetween, hd]
    norm_num
  constructor
  · rw [hsome]
    rfl
  · rw [hsome, Option.map_some', hy]

/-- C6 (amended): the guarded calculate_cagr shared by app.py and
sip_estimation.py returns (end over start) to the power (1 / years), minus
1, for positive years, and exactly 0 for years ≤ 0; working.py's
calculate_cagr applies the power formula with no years guard, including for
non-positive years. -/
theorem C6_point_cagr_policy (startNav endNav years : ℚ) :
    (0 < years → calculate_cagr startNav endNav years
      = ((endNav / startNav : ℚ) : ℝ) ^ (1 / (years : ℝ)) - 1)
    ∧ (years ≤ 0 → calculate_cagr startNav endNav years = 0)
    ∧ workingCalculateCagr startNav endNav years
      = ((endNav / startNav : ℚ) : ℝ) ^ (1 / (years : ℝ)) - 1 := by
  refine ⟨fun h => ?_, fun h => ?_, rfl⟩
  · rw [calculate_cagr, if_pos h]
  · rw [calculate_cagr, if_neg (not_lt.2 h)]

/-- Witness for C6 at concrete inputs on both sides of the years guard. -/
theorem C6_witness :
    calculate_cagr 10 20 0 = 0
    ∧ calculate_cagr 10 20 2
      = (((20 : ℚ) / 10 : ℚ) : ℝ) ^ (1 / ((2 : ℚ) : ℝ)) - 1 :=
  ⟨(C6_point_cagr_policy 10 20 0).2.1 (by norm_num),
   (C6_point_cagr_policy 10 20 2).1 (by norm_num)⟩

/-- Counterexample for C6 as stated: working.py's calculate_cagr at years
equal to -1 returns 2 ^ (-1) - 1 = -(1 / 2), not 0. -/
theorem C6_counterexample :
    workingCalculateCagr 1 2 (-1) ≠ 0
    ∧ workingCalculateCagr 1 2 (-1) = -(1 / 2) := by
  have h : workingCalculateCagr 1 2 (-1) = -(1 / 2) := by
    rw [workingCalculateCagr]
    have h1 : (((2 : ℚ) / 1 : ℚ) : ℝ) = 2 := by norm_num
    have h2 : (1 / (((-1 : ℚ)) : ℝ)) = ((-1 : ℤ) : ℝ) := by push_cast; norm_num
    rw [h1, h2, Real.rpow_intCast]
    norm_num
  exact ⟨by rw [h]; norm_num, h⟩

/-- C7: apply_resting_period returns the invested amount unchanged with 0%
CAGR when the resting years are non-positive or when the resting sub-series
is empty; otherwise it projects the invested amount forward by
(1 + c) ^ years, where c is the CAGR between the sub-series' first and last
NAV over the resting years. -/
theorem C7_resting_policy (series : List NavRow) (investedAmount : ℚ)
    (years : Int) :
    (years ≤ 0 → apply_resting_period series investedAmount years
      = ((investedAmount : ℝ), 0))
    ∧ (0 < years → restingSub series years = [] →
      apply_resting_period series investedAmount years
        = ((investedAmount : ℝ), 0))
    ∧ (0 < years → restingSub series years ≠ [] →
      (apply_resting_period series investedAmount years).1
        = (investedAmount : ℝ)
          * (1 + calculate_cagr ((restingSub series years).headD navDefault).2
              ((restingSub series years).getLastD navDefault).2 (years : ℚ))
            ^ (years : ℝ)) := by
  refine ⟨fun h => ?_, fun h1 h2 => ?_, fun h1 h2 => ?_⟩
  · rw [apply_resting_period, if_pos h]
  · rw [apply_resting_period, if_neg (not_le.2 h1), if_pos (by simp [h2])]
  · rw [apply_resting_period, if_neg (not_le.2 h1),
      if_neg (by simp [List.isEmpty_iff, h2])]
    rw [calculate_estimated_amount]

/-- Concrete two-sample resting series spanning one year. -/
def restSeries : List NavRow := [(⟨2020, 1, 1⟩, 10), (⟨2021, 1, 1⟩, 20)]

/-- Witness for C7: zero resting years and the empty series leave 500
unchanged with 0% CAGR, and a one-year rest on the concrete series projects
500 by the window CAGR. -/
theorem C7_witness :
    apply_resting_period restSeries 500 0 = (((500 : ℚ) : ℝ), 0)
    ∧ apply_resting_period [] 500 1 = (((500 : ℚ) : ℝ), 0)
    ∧ (apply_resting_period restSeries 500 1).1
      = ((500 : ℚ) : ℝ)
        * (1 + calculate_cagr ((restingSub restSeries 1).headD navDefault).2
            ((restingSub restSeries 1).getLastD navDefault).2 ((1 : ℤ) : ℚ))
          ^ ((1 : ℤ) : ℝ) :=
  ⟨(C7_resting_policy restSeries 500 0).1 (by norm_num),
   (C7_resting_policy [] 500 1).2.1 (by norm_num) (by decide),
   (C7_resting_policy restSeries 500 1).2.2 (by norm_num) (by decide)⟩

/-- C8: the portfolio aggregate sums the funds' invested amounts into one
grand total and their final values into another, and blends one CAGR over
the shared horizon with the point-CAGR formula. -/
theorem C8_portfolio_aggregate (results : List (ℚ × ℚ)) (years : ℚ)
    (hy : 0 < years) :
    (portfolioAggregate results years).1 = (results.map Prod.fst).sum
    ∧ (portfolioAggregate results years).2.1 = (results.map Prod.snd).sum
    ∧ (portfolioAggregate results years).2.2
      = (((results.map Prod.snd).sum / (results.map Prod.fst).sum : ℚ) : ℝ)
          ^ (1 / (years : ℝ)) - 1 := by
  refine ⟨rfl, rfl, ?_⟩
  show calculate_cagr ((results.map Prod.fst).sum)
      ((results.map Prod.snd).sum) years = _
  rw [calculate_cagr, if_pos hy]

/-- Witness for C8: the two-fund scenario (invested 10000 and 20000, final
values 15000 and 28000) over a shared 3-year horizon gives the blended CAGR
(43000 / 30000) ^ (1 / 3) - 1. -/
theorem C8_witness :
    (portfolioAggregate [(10000, 15000), (20000, 28000)] 3).1 = 30000
    ∧ (portfolioAggregate [(10000, 15000), (20000, 28000)] 3).2.1 = 43000
    ∧ (portfolioAggregate [(10000, 15000), (20000, 28000)] 3).2.2
      = (((43000 : ℚ) / 30000 : ℚ) : ℝ) ^ (1 / ((3 : ℚ) : ℝ)) - 1 := by
  have h := C8_portfolio_aggregate [(10000, 15000), (20000, 28000)] 3 (by norm_num)
  have hfst : (([(10000, 15000), (20000, 28000)] : List (ℚ × ℚ)).map Prod.fst).sum
      = (30000 : ℚ) := by norm_num
  have hsnd : (([(10000, 15000), (20000, 28000)] : List (ℚ × ℚ)).map Prod.snd).sum
      = (43000 : ℚ) := by norm_num
  refine ⟨?_, ?_, ?_⟩
  · rw [h.1, hfst]
  · rw [h.2.1, hsnd]
  · rw [h.2.2, hfst, hsnd]

end MutualFund
